import Mathlib

/-!
Shallow embedding of the PaperScout acquisition and normalization core
(`config.py`, `parsing.py`, `openreview_client.py`, `web_scraper.py`).

Python runtime values are modelled by the inductive `PyVal`; Python floats
are modelled by exact rationals (`ℚ`), which is faithful for every score
value this program manipulates (decimal literals and small integers).
Python dictionaries are modelled as association lists with unique keys,
`None` by `PyVal.none`, and exceptions by `Except String`.
-/

namespace PaperScout

/-- A Python runtime value, restricted to the shapes that flow through this
program: `None`, booleans, ints, floats (as exact rationals), strings,
lists, and string-keyed dicts. -/
inductive PyVal where
  | none
  | bool (b : Bool)
  | int (n : ℤ)
  | float (q : ℚ)
  | str (s : String)
  | list (xs : List PyVal)
  | dict (kvs : List (String × PyVal))

/-- A Python dict with string keys, as an association list (keys unique). -/
abbrev Content := List (String × PyVal)

/-- Python truthiness (`bool(v)`) for the modelled value shapes. -/
def pyTruthy : PyVal → Bool
  | .none => false
  | .bool b => b
  | .int n => n != 0
  | .float q => q != 0
  | .str s => s != ""
  | .list xs => !xs.isEmpty
  | .dict kvs => !kvs.isEmpty

/-- Python `a or b`: `a` when truthy, else `b`. -/
def pyOr (a b : PyVal) : PyVal := if pyTruthy a then a else b

/-- Python `d.get(k)` on a dict: the stored value, or `None` when absent. -/
def dictGet (kvs : Content) (k : String) : PyVal :=
  match kvs.lookup k with
  | some v => v
  | Option.none => .none

/-- Comma-and-space join used by Python list/dict repr. -/
def joinComma : List String → String
  | [] => ""
  | [s] => s
  | s :: rest => s ++ ", " ++ joinComma rest

/-- Smallest exponent `k ≤ 39` with `den ∣ 10 ^ k`, if any. -/
def pow10Exp (den : ℕ) : Option ℕ :=
  (List.range 40).find? fun k => 10 ^ k % den == 0

/-- Decimal string Python prints for a float; exact for the finite-decimal
rationals this program constructs (the only floats that occur). -/
def floatStr (q : ℚ) : String :=
  let sign := if q.num < 0 then "-" else ""
  let n := q.num.natAbs
  match pow10Exp q.den with
  | some k =>
    let scaled := n * 10 ^ k / q.den
    let ip := scaled / 10 ^ k
    let fp := scaled % 10 ^ k
    let fpStr := Nat.repr fp
    let pad := String.mk (List.replicate (k - fpStr.length) '0')
    sign ++ Nat.repr ip ++ "." ++ pad ++ fpStr
  | Option.none => sign ++ Nat.repr n ++ "/" ++ Nat.repr q.den

mutual

/-- Models Python `repr` for the modelled value shapes (used only through
`pyStr`, i.e. through `str(...)` coercion inside `parse_score`). -/
def pyRepr : PyVal → String
  | .none => "None"
  | .bool b => if b then "True" else "False"
  | .int n => Int.repr n
  | .float q => floatStr q
  | .str s => "\x27" ++ s ++ "\x27"
  | .list xs => "[" ++ joinComma (pyReprList xs) ++ "]"
  | .dict kvs => "\x7b" ++ joinComma (pyReprKVs kvs) ++ "\x7d"

/-- Reprs of the elements of a list value. -/
def pyReprList : List PyVal → List String
  | [] => []
  | v :: vs => pyRepr v :: pyReprList vs

/-- Reprs of the key/value pairs of a dict value. -/
def pyReprKVs : List (String × PyVal) → List String
  | [] => []
  | (k, v) :: kvs => ("\x27" ++ k ++ "\x27: " ++ pyRepr v) :: pyReprKVs kvs

end

/-- Models Python `str(v)`: identity on strings, repr-like elsewhere. -/
def pyStr : PyVal → String
  | .str s => s
  | v => pyRepr v

/-- Python `s.strip()`: drop whitespace from both ends. -/
def pyStrip (s : String) : String :=
  String.mk (((s.data.dropWhile Char.isWhitespace).reverse.dropWhile
    Char.isWhitespace).reverse)

/-!
### The regular expression of `parse_score`

`parsing.py` line 42 searches for the first match of `-?\d+\.?\d*`:
an optional minus sign, one or more digits, an optional dot, then any
number of further digits.  The pattern has no backtracking choices (after
greedy digit runs the optional items either fit or they do not), so a
direct functional matcher is an exact model of `re.search`.
-/

/-- Greedy match of `\d+\.?\d*` at the head of `cs`: the matched characters,
or `none` when `cs` does not start with a digit. -/
def matchDigitsAt (cs : List Char) : Option (List Char) :=
  let ds := cs.takeWhile Char.isDigit
  if ds.isEmpty then Option.none
  else
    match cs.dropWhile Char.isDigit with
    | '.' :: rest => some (ds ++ ['.'] ++ rest.takeWhile Char.isDigit)
    | _ => some ds

/-- Greedy match of `-?\d+\.?\d*` at the head of `cs`. -/
def matchNumAt (cs : List Char) : Option (List Char) :=
  match cs with
  | '-' :: rest => (matchDigitsAt rest).map (fun m => '-' :: m)
  | _ => matchDigitsAt cs

/-- `re.search` for `-?\d+\.?\d*`: the match at the leftmost position that
admits one, scanning left to right. -/
def reSearchNum : List Char → Option (List Char)
  | [] => Option.none
  | c :: cs =>
    match matchNumAt (c :: cs) with
    | some m => some m
    | Option.none => reSearchNum cs

/-- Numeric value of a digit run (most significant first). -/
def digitsToNat (ds : List Char) : ℕ :=
  ds.foldl (fun acc c => 10 * acc + (c.toNat - '0'.toNat)) 0

/-- Python `float(s)` on a string of the shape `-?\d+(\.\d*)?` produced by
the matcher (total on that shape; `parse_score` wraps the real call in a
`try` whose `ValueError` branch is unreachable for such strings). -/
def parseMatchedFloat (cs : List Char) : ℚ :=
  let (neg, cs) := match cs with
    | '-' :: r => (true, r)
    | r => (false, r)
  let ip := cs.takeWhile Char.isDigit
  let fp := match cs.dropWhile Char.isDigit with
    | '.' :: r => r
    | _ => ([] : List Char)
  let v : ℚ := (digitsToNat ip : ℚ) + (digitsToNat fp : ℚ) / 10 ^ fp.length
  if neg then -v else v

/-- `parsing.parse_score`: `None` for `None`; numbers (including `bool`,
which Python counts as `int`) returned as floats; otherwise coerce to a
string, strip it, and return the first `-?\d+\.?\d*` match as a float, or
`None` when the stripped string is empty or has no match. -/
def parse_score : PyVal → Option ℚ
  | .none => Option.none
  | .bool b => some (if b then 1 else 0)
  | .int n => some (n : ℚ)
  | .float q => some q
  | v =>
    let text_str := pyStrip (pyStr v)
    if text_str = "" then Option.none
    else
      match reSearchNum text_str.data with
      | some m => some (parseMatchedFloat m)
      | Option.none => Option.none

/-!
### `config.py`
-/

/-- `config.SCORE_FIELD_NAMES`: score field names in priority order. -/
def SCORE_FIELD_NAMES : List String :=
  ["rating", "recommendation", "score", "soundness", "overall",
   "Overall", "Rating", "Recommendation", "Overall Recommendation",
   "overall_recommendation"]

/-- `config.CONFIDENCE_FIELD_NAMES`: confidence field names in priority
order. -/
def CONFIDENCE_FIELD_NAMES : List String := ["confidence", "Confidence"]

/-- One entry of `config.VENUE_MAPPINGS`. -/
structure VenueConfig where
  display_name : String
  aliases : List String
  patterns : List String
  years_available : List ℤ
  source : Option String := Option.none

/-- `config.VENUE_MAPPINGS`, in declaration order (Python dicts preserve
insertion order). -/
def VENUE_MAPPINGS : List (String × VenueConfig) :=
  [("ICLR",
    { display_name := "ICLR", aliases := ["iclr"],
      patterns := ["ICLR.cc/\x7byear\x7d/Conference"],
      years_available := (List.range 9).map (fun i => 2018 + (i : ℤ)) }),
   ("NeurIPS",
    { display_name := "NeurIPS", aliases := ["neurips", "nips", "NIPS"],
      patterns := ["NeurIPS.cc/\x7byear\x7d/Conference",
                   "NIPS.cc/\x7byear\x7d/Conference"],
      years_available := (List.range 8).map (fun i => 2019 + (i : ℤ)) }),
   ("ICML",
    { display_name := "ICML", aliases := ["icml"],
      patterns := ["ICML.cc/\x7byear\x7d/Conference"],
      years_available := (List.range 4).map (fun i => 2023 + (i : ℤ)) }),
   ("AAAI",
    { display_name := "AAAI", aliases := ["aaai"],
      patterns := ["AAAI.org/\x7byear\x7d/Conference"],
      years_available := (List.range 5).map (fun i => 2021 + (i : ℤ)),
      source := some "web" })]

/-- ASCII upper-casing, modelling Python `str.upper()` on the ASCII venue
names this program uses. -/
def pyUpper (s : String) : String := String.mk (s.data.map Char.toUpper)

/-- ASCII lower-casing, modelling Python `str.lower()`. -/
def pyLower (s : String) : String := String.mk (s.data.map Char.toLower)

/-- Fueled replacement of each occurrence of `tgt` in a character list
(left to right, non-overlapping), as Python `str.format`/`str.replace`
performs; `fuel` bounds the recursion and never runs out when it starts
at the length of the list. -/
def replaceAllAux (tgt rep : List Char) : ℕ → List Char → List Char
  | _, [] => []
  | 0, cs => cs
  | fuel + 1, c :: cs =>
    if tgt ≠ [] ∧ tgt.isPrefixOf (c :: cs) then
      rep ++ replaceAllAux tgt rep fuel ((c :: cs).drop tgt.length)
    else c :: replaceAllAux tgt rep fuel cs

/-- Replace each occurrence of `tgt` by `rep` in `s`. -/
def strReplace (s tgt rep : String) : String :=
  String.mk (replaceAllAux tgt.data rep.data s.data.length s.data)

/-- Python `pattern.format(year=year)` on the venue id patterns. -/
def formatYear (pattern : String) (year : ℤ) : String :=
  strReplace pattern "\x7byear\x7d" (Int.repr year)

/-- The match test of the loop in `config.get_venue_id_candidates`
(line 108): upper-cased stripped input equals the upper-cased key, or the
lower-cased raw input is among the lower-cased aliases. -/
def venueMatches (venue_name : String) (kc : String × VenueConfig) : Bool :=
  pyStrip (pyUpper venue_name) == pyUpper kc.1 ||
    (kc.2.aliases.map pyLower).contains (pyLower venue_name)

/-- `config.get_venue_id_candidates`: patterns of the first matching venue
config instantiated with the year, else the input name itself. -/
def get_venue_id_candidates (venue_name : String) (year : ℤ) : List String :=
  match VENUE_MAPPINGS.find? (venueMatches venue_name) with
  | some kc => kc.2.patterns.map (fun p => formatYear p year)
  | Option.none => [venue_name]

/-!
### `parsing.py`: per-review extraction and statistics
-/

/-- A reply/review record; the source accesses it only through
`reply.get("content", \x7b\x7d)`, so it is modelled by its `content`
dict (`[]` models both a missing and an empty content). -/
structure Reply where
  content : Content

/-- The unwrap step of `parsing.extract_review_scores` (lines 70/82): a
dict containing a `value` key is replaced by that value. -/
def unwrapValue (v : PyVal) : PyVal :=
  match v with
  | .dict kvs =>
    match kvs.lookup "value" with
    | some inner => inner
    | Option.none => .dict kvs
  | _ => v

/-- One extraction loop of `parsing.extract_review_scores`: walk the field
names in priority order; for a field present in `content`, unwrap its
value and parse it; keep the first successfully parsed value, otherwise
continue with the remaining fields. -/
def firstParsedScore (content : Content) : List String → Option ℚ
  | [] => Option.none
  | f :: rest =>
    match content.lookup f with
    | some value =>
      match parse_score (unwrapValue value) with
      | some parsed => some parsed
      | Option.none => firstParsedScore content rest
    | Option.none => firstParsedScore content rest

/-- `parsing.extract_review_scores`: the score and confidence loops are
the same loop shape over `SCORE_FIELD_NAMES` and
`CONFIDENCE_FIELD_NAMES` respectively. -/
def extract_review_scores (review : Reply) : Option ℚ × Option ℚ :=
  (firstParsedScore review.content SCORE_FIELD_NAMES,
   firstParsedScore review.content CONFIDENCE_FIELD_NAMES)

/-- The result dict of `parsing.compute_score_stats` and of
`openreview_client.extract_scores_from_replies` (same keys in both). -/
structure ScoreStats where
  review_count : ℕ
  scored_review_count : ℕ
  scores : List ℚ
  confidences : List ℚ
  max_score : Option ℚ
  min_score : Option ℚ
  avg_score : Option ℚ
  avg_confidence : Option ℚ
deriving DecidableEq

/-- Shared tail of both statistics builders: Python
`max(scores) if scores else None`, `min(...)`, and
`sum(xs) / len(xs) if xs else None`. -/
def mkStats (review_count : ℕ) (scores confidences : List ℚ) : ScoreStats where
  review_count := review_count
  scored_review_count := scores.length
  scores := scores
  confidences := confidences
  max_score := scores.max?
  min_score := scores.min?
  avg_score := if scores.isEmpty then Option.none
               else some (scores.sum / scores.length)
  avg_confidence := if confidences.isEmpty then Option.none
                    else some (confidences.sum / confidences.length)

/-- `parsing.compute_score_stats`: run `extract_review_scores` over each
review in order, collecting the non-`None` scores and confidences (the
source's single append loop, phrased as order-preserving `filterMap`s). -/
def compute_score_stats (reviews : List Reply) : ScoreStats :=
  let scores := reviews.filterMap (fun r => (extract_review_scores r).1)
  let confidences := reviews.filterMap (fun r => (extract_review_scores r).2)
  mkStats reviews.length scores confidences

/-!
### `openreview_client.py`: classification and aggregation over replies
-/

/-- `openreview_client.REVIEW_INDICATOR_KEYS` (a Python set; order is
irrelevant, membership is all that is used). -/
def REVIEW_INDICATOR_KEYS : List String :=
  ["rating", "recommendation", "soundness", "contribution", "summary",
   "weaknesses", "strengths_and_weaknesses", "quality", "clarity",
   "significance", "originality", "confidence", "questions", "limitations",
   "Overall Recommendation", "overall_recommendation"]

/-- `openreview_client.is_review_reply`: false for empty content, else
true when at least one content key is an indicator key (the source
computes the intersection size and compares with 1). -/
def is_review_reply (reply : Reply) : Bool :=
  if reply.content.isEmpty then false
  else reply.content.any (fun kv => REVIEW_INDICATOR_KEYS.contains kv.1)

/-- The rating extraction of `extract_scores_from_replies` (lines
103-115): an `or`-chain over five fields (so falsy values fall through),
a dict unwrapped by `rating.get("value", "")`, then `parse_score`;
`none` when the chain is falsy or parsing fails. -/
def clientReplyScore (content : Content) : Option ℚ :=
  let rating :=
    pyOr (dictGet content "rating")
      (pyOr (dictGet content "recommendation")
        (pyOr (dictGet content "score")
          (pyOr (dictGet content "Overall Recommendation")
            (dictGet content "overall_recommendation"))))
  if pyTruthy rating then
    let rating := match rating with
      | .dict kvs =>
        match kvs.lookup "value" with
        | some v => v
        | Option.none => .str ""
      | v => v
    parse_score rating
  else Option.none

/-- The confidence extraction of `extract_scores_from_replies` (lines
118-124): same shape as the rating branch over the single field
`confidence`. -/
def clientReplyConfidence (content : Content) : Option ℚ :=
  let confidence := dictGet content "confidence"
  if pyTruthy confidence then
    let confidence := match confidence with
      | .dict kvs =>
        match kvs.lookup "value" with
        | some v => v
        | Option.none => .str ""
      | v => v
    parse_score confidence
  else Option.none

/-- `openreview_client.extract_scores_from_replies`: skip non-review
replies, count the rest, and collect their parsed scores and confidences
in order (the source's single loop, phrased as a filter and two
order-preserving `filterMap`s over it). -/
def extract_scores_from_replies (replies : List Reply) : ScoreStats :=
  let reviews := replies.filter is_review_reply
  let scores := reviews.filterMap (fun r => clientReplyScore r.content)
  let confidences := reviews.filterMap (fun r => clientReplyConfidence r.content)
  mkStats reviews.length scores confidences

/-!
### `openreview_client.py`: notes, papers and the fetch state machine

Network interaction is modelled by an explicit environment record: each
external call site is a field giving either a result (`Except.ok`) or a
raised exception (`Except.error`, carrying the message).  The remote
responses are deterministic per invitation string, which models the
retry loop faithfully: all attempts of `retry_with_backoff` see the same
outcome.
-/

/-- A note returned by the OpenReview API, with the attributes the source
reads: `id` always exists; `forum` and `content` are guarded by
`hasattr`; `details` with its `replies` list is modelled as the optional
reply list (`none` when `details` is missing or falsy). -/
structure Note where
  id : String
  forum : Option String
  content : Option Content
  replies : Option (List Reply)

/-- The local `get_val` of the fetch loop (lines 224-228): look the key up
in the note content, unwrapping a dict that contains a `value` key. -/
def note_get_val (content : Content) (key : String) : PyVal :=
  match content.lookup key with
  | some (.dict kvs) =>
    match kvs.lookup "value" with
    | some inner => inner
    | Option.none => .dict kvs
  | some v => v
  | Option.none => .none

/-- A paper dict, as built by the fetch loop. -/
abbrev Paper := List (String × PyVal)

/-- The `**score_stats` expansion in the paper literal (lines 238-249):
the stats dict keys in their construction order, with `None` for absent
aggregates. -/
def statsKVs (s : ScoreStats) : List (String × PyVal) :=
  let optQ : Option ℚ → PyVal := fun v =>
    match v with
    | some q => .float q
    | Option.none => .none
  [("review_count", .int s.review_count),
   ("scored_review_count", .int s.scored_review_count),
   ("scores", .list (s.scores.map .float)),
   ("confidences", .list (s.confidences.map .float)),
   ("max_score", optQ s.max_score),
   ("min_score", optQ s.min_score),
   ("avg_score", optQ s.avg_score),
   ("avg_confidence", optQ s.avg_confidence)]

/-- Python `s.startswith(t)`. -/
def startsWithStr (s t : String) : Bool := t.data.isPrefixOf s.data

/-- The body of the fetch loop (lines 221-259): normalize one note into a
paper dict.  The `pdf_url` derivation prefixes the base URL only for a
non-empty relative string path (the stored `pdf` is a string in every
record this program sees). -/
def paperOfNote (venue_id : String) (note : Note) : Paper :=
  let content := note.content.getD []
  let forum := note.forum.getD note.id
  let pdf := pyOr (note_get_val content "pdf") (.str "")
  let score_stats := extract_scores_from_replies (note.replies.getD [])
  let pdf_url :=
    match pdf with
    | .str s =>
      if s != "" && !startsWithStr s "http" then
        PyVal.str ("https://openreview.net" ++ s)
      else .str s
    | v => v
  [("id", PyVal.str note.id),
   ("forum", PyVal.str forum),
   ("title", pyOr (note_get_val content "title") (.str "Untitled")),
   ("abstract", pyOr (note_get_val content "abstract") (.str "")),
   ("authors", pyOr (note_get_val content "authors") (.list [])),
   ("keywords", pyOr (note_get_val content "keywords") (.list [])),
   ("tldr", pyOr (note_get_val content "TL;DR")
      (pyOr (note_get_val content "tldr") (.str ""))),
   ("pdf", pdf),
   ("venue_id", PyVal.str venue_id)]
  ++ statsKVs score_stats
  ++ [("openreview_url", PyVal.str ("https://openreview.net/forum?id=" ++ forum)),
      ("pdf_url", pdf_url)]

/-- The count of `p.get("scored_review_count", 0) > 0` over the built
papers (line 261); the stored value is always an int by construction. -/
def hasScoredReview (p : Paper) : Bool :=
  match p.lookup "scored_review_count" with
  | some (.int k) => k > 0
  | _ => false

/-!
### `web_scraper.py`
-/

/-- One entry of the community JSON dataset, with the five keys the source
reads (each may be missing; values are strings in this dataset). -/
structure WebItem where
  id : Option String
  title : Option String
  abstract : Option String
  author : Option String
  pdf : Option String

/-- The outcome of `requests.get`: a status code plus the outcome of
`.json()` (which may itself raise). -/
structure HttpResponse where
  status_code : ℕ
  json : Except String (List WebItem)

/-- The network as seen by `web_scraper.py`: what `requests.get` does for
each URL (`Except.error` models a raised exception). -/
structure WebEnv where
  get : String → Except String HttpResponse

/-- The URL built from `AAAI_GITHUB_URL_TEMPLATE` for a year. -/
def aaaiUrl (year : String) : String :=
  "https://raw.githubusercontent.com/papercopilot/paperlists/main/aaai/aaai"
    ++ year ++ ".json"

/-- The author split of `fetch_aaai_from_github` (line 31): split a
non-empty author string on semicolons and strip each part; an empty (or
missing) author string gives an empty list. -/
def splitAuthors (authors_str : String) : List String :=
  if authors_str != "" then (authors_str.splitOn ";").map pyStrip else []

/-- One entry of the loop of `fetch_aaai_from_github` (lines 28-57): the
flattened note dict for one JSON item.  `int(year)` always succeeds
because the year string comes from a `20\d\d` regex match. -/
def webNoteOfItem (year : String) (item : WebItem) : Paper :=
  let authors := splitAuthors (item.author.getD "")
  [("id", PyVal.str (item.id.getD "unknown")),
   ("forum", PyVal.str (item.id.getD "unknown")),
   ("title", PyVal.str (item.title.getD "Untitled")),
   ("abstract", PyVal.str (item.abstract.getD "")),
   ("authors", PyVal.list (authors.map PyVal.str)),
   ("keywords", PyVal.list []),
   ("tldr", PyVal.str ""),
   ("pdf", PyVal.str (item.pdf.getD "")),
   ("venue", PyVal.str ("AAAI " ++ year)),
   ("venue_id", PyVal.str ("AAAI.org/" ++ year ++ "/Conference")),
   ("year", PyVal.int ((year.toNat?).getD 0 : ℤ)),
   ("avg_score", PyVal.none),
   ("max_score", PyVal.none),
   ("min_score", PyVal.none),
   ("scored_review_count", PyVal.int 0),
   ("score_distribution", PyVal.dict [])]

/-- `web_scraper.fetch_aaai_from_github`: the whole body sits in a `try`
whose handler returns `[]`, a 404 returns `[]` early, and
`raise_for_status` raises for any 4xx/5xx status; otherwise each JSON
item is mapped to a note dict. -/
def fetch_aaai_from_github (env : WebEnv) (year : String) : List Paper :=
  match env.get (aaaiUrl year) with
  | .error _ => []
  | .ok response =>
    if response.status_code = 404 then []
    else if 400 ≤ response.status_code ∧ response.status_code < 600 then []
    else
      match response.json with
      | .error _ => []
      | .ok data => data.map (webNoteOfItem year)

/-- `re.search` for `20\d\d` at the head of a character list. -/
def matchYearAt : List Char → Option String
  | '2' :: '0' :: a :: b :: _ =>
    if a.isDigit && b.isDigit then some (String.mk ['2', '0', a, b])
    else Option.none
  | _ => Option.none

/-- `re.search(r"20\d\x7b2\x7d", s)`: leftmost four-character year. -/
def searchYear : List Char → Option String
  | [] => Option.none
  | c :: cs =>
    match matchYearAt (c :: cs) with
    | some y => some y
    | Option.none => searchYear cs

/-- Sub-list occurrence test: `sub` occurs contiguously in the list. -/
def containsSub (sub : List Char) : List Char → Bool
  | [] => sub.isEmpty
  | c :: cs => sub.isPrefixOf (c :: cs) || containsSub sub cs

/-- Python substring containment `sub in s`. -/
def strContains (s sub : String) : Bool := containsSub sub.data s.data

/-- `web_scraper.scrape_venue`: for an id containing `AAAI`, extract the
year and fetch from GitHub; everything else yields `[]`. -/
def scrape_venue (env : WebEnv) (venue_id : String) : List Paper :=
  if strContains venue_id "AAAI" then
    match searchYear venue_id.data with
    | some year => fetch_aaai_from_github env year
    | Option.none => []
  else []

/-!
### `openreview_client.py`: client creation and the fetch state machine
-/

/-- Which client generation `create_client` handed back. -/
inductive ClientKind where
  | v2
  | v1
deriving DecidableEq

/-- The external world as seen by one `fetch_submissions_with_reviews`
call: the outcomes of constructing each client generation, of
`get_all_notes` per invitation on the API-v2 surface, of the V1 note
fetch per invitation, and of the web requests.  Outcomes are
deterministic per call site, so every retry of `retry_with_backoff`
observes the same result. -/
structure FetchEnv where
  clientV2 : Except String Unit
  clientV1 : Except String Unit
  getAllNotes : String → Except String (List Note)
  v1Notes : String → Except String (List Note)
  web : WebEnv

/-- `openreview_client.create_client`: try the API-v2 constructor; on an
exception construct the API-v1 client instead — and that second
construction is NOT guarded, so its exception propagates to the caller.
(The process-wide client cache only matters across calls and is not part
of a single call's semantics.) -/
def create_client (env : FetchEnv) : Except String ClientKind :=
  match env.clientV2 with
  | .ok _ => .ok .v2
  | .error _ =>
    match env.clientV1 with
    | .ok _ => .ok .v1
    | .error e => .error e

/-- `openreview_client.retry_with_backoff` on a deterministic call: a
success is returned as-is; a failure is re-raised after the attempt cap
as `OpenReviewClientError` with the wrapped message (`API_RETRY_MAX`
is 3). -/
def retry_with_backoff (r : Except String (List Note)) :
    Except String (List Note) :=
  match r with
  | .ok v => .ok v
  | .error e => .error ("API failed after 3 attempts: " ++ e)

/-- The alternative-pattern loop (lines 167-179): try `Blind_Submission`
then `Paper`, each inside its own `try` whose handler continues; the
first non-empty result wins, and every other combination of outcomes
leaves the empty list in place. -/
def tryAlternativePatterns (env : FetchEnv) (venue_id : String) : List Note :=
  let paperAttempt :=
    match retry_with_backoff (env.getAllNotes (venue_id ++ "/-/Paper")) with
    | .ok ns => ns
    | .error _ => []
  match retry_with_backoff (env.getAllNotes (venue_id ++ "/-/Blind_Submission")) with
  | .ok ns => if ns.isEmpty then paperAttempt else ns
  | .error _ => paperAttempt

/-- One pattern attempt of the V1 fallback loop (lines 200-217): an inner
`try` turns an exception into a continue, i.e. into `[]` here. -/
def v1Attempt (env : FetchEnv) (invitation : String) : List Note :=
  match env.v1Notes invitation with
  | .ok ns => ns
  | .error _ => []

/-- The V1 API fallback block (lines 183-219): the whole block sits in a
`try` whose handler only logs, so a failing V1 client construction
yields `[]`; otherwise the three naming patterns are tried in order and
the first non-empty result wins. -/
def tryV1Fallback (env : FetchEnv) (venue_id : String) : List Note :=
  match env.clientV1 with
  | .error _ => []
  | .ok _ =>
    let a := v1Attempt env (venue_id ++ "/-/Submission")
    if !a.isEmpty then a
    else
      let b := v1Attempt env (venue_id ++ "/-/Blind_Submission")
      if !b.isEmpty then b
      else v1Attempt env (venue_id ++ "/-/Paper")

/-- The delegation test of lines 147-151: some venue config is tagged
`source == "web"` and its key occurs in the venue id. -/
def webDelegated (venue_id : String) : Bool :=
  VENUE_MAPPINGS.any fun kc =>
    (kc.2.source == some "web") && strContains venue_id kc.1

/-- The success status string of line 262. -/
def fetchedMsg (papers : List Paper) : String :=
  let total := papers.length
  let reviewed := (papers.filter hasScoredReview).length
  s!"Fetched {total} papers ({reviewed} with reviews)"

/-- The `try` body of `fetch_submissions_with_reviews` (lines 157-262):
fetch under `Submission` (a retry exhaustion here escapes to the outer
handler), fall back to the alternative patterns and then to the V1 API
when the result is empty, and normalize every note into a paper dict. -/
def fetchBody (env : FetchEnv) (venue_id : String) :
    Except String (List Paper × String) :=
  match retry_with_backoff (env.getAllNotes (venue_id ++ "/-/Submission")) with
  | .error e => .error e
  | .ok notes =>
    let notes := if notes.isEmpty then tryAlternativePatterns env venue_id
                 else notes
    let notes := if notes.isEmpty then tryV1Fallback env venue_id else notes
    let papers := notes.map (paperOfNote venue_id)
    .ok (papers, fetchedMsg papers)

/-- `openreview_client.fetch_submissions_with_reviews`: web-tagged venues
are delegated to `scrape_venue` before anything else; then the client is
created OUTSIDE the `try` block (so a client-creation exception
propagates), and the `try` body's exceptions are converted into
`([], "Error: ...")`. -/
def fetch_submissions_with_reviews (env : FetchEnv) (venue_id : String) :
    Except String (List Paper × String) :=
  if webDelegated venue_id then .ok (scrape_venue env.web venue_id, "")
  else
    match create_client env with
    | .error e => .error e
    | .ok _ =>
      match fetchBody env venue_id with
      | .ok res => .ok res
      | .error e => .ok ([], "Error: " ++ e)

/-!
### Properties of the number-searching regex model
-/

/-!
### Spec-side comparison definitions and concrete scenario data
-/

/-- The score-extraction rule exactly as the spec sentence words it
(modelled from the spec, for comparison with the code): take the value
of the FIRST field name PRESENT in the content by priority order, unwrap
it, and pass that one value to the parser. -/
def spec_first_present_score (content : Content) (fields : List String) :
    Option ℚ :=
  match fields.find? (fun f => (content.lookup f).isSome) with
  | some f => parse_score (unwrapValue (dictGet content f))
  | Option.none => Option.none

/-- The amended extraction rule: the first field in priority order that
is present AND whose unwrapped value parses to a number. -/
def spec_first_parsed_score (content : Content) (fields : List String) :
    Option ℚ :=
  (fields.filterMap (fun f => (content.lookup f).bind
    (fun v => parse_score (unwrapValue v)))).head?

/-- The Paper fields the claim enumerates from the spec's data model. -/
def SPEC_PAPER_FIELDS : List String :=
  ["id", "forum", "title", "abstract", "authors", "keywords", "tldr", "pdf",
   "pdf_url", "openreview_url", "venue_id", "review_count",
   "scored_review_count", "scores", "confidences", "max_score", "min_score",
   "avg_score", "avg_confidence"]

/-- The keys of an API-path paper dict, in construction order. -/
def API_PAPER_FIELDS : List String :=
  ["id", "forum", "title", "abstract", "authors", "keywords", "tldr", "pdf",
   "venue_id", "review_count", "scored_review_count", "scores", "confidences",
   "max_score", "min_score", "avg_score", "avg_confidence", "openreview_url",
   "pdf_url"]

/-- The keys of a web-scrape-path paper dict, in construction order. -/
def WEB_PAPER_FIELDS : List String :=
  ["id", "forum", "title", "abstract", "authors", "keywords", "tldr", "pdf",
   "venue", "venue_id", "year", "avg_score", "max_score", "min_score",
   "scored_review_count", "score_distribution"]

/-- A concrete dataset entry for the web-scrape counterexample. -/
def c6WebItem : WebItem :=
  ⟨some "aaai1", some "A Paper", some "An abstract", some "Alice; Bob",
   some "https://x/p.pdf"⟩

/-- A fetch environment whose web request succeeds with one item. -/
def c6Env : FetchEnv :=
  ⟨.ok (), .ok (), fun _ => .ok [], fun _ => .ok [],
   ⟨fun _ => .ok ⟨200, .ok [c6WebItem]⟩⟩⟩

/-- A note realizing the C5 scenario. -/
def c5Note : Note := ⟨"n1", some "n1", some [("title", PyVal.str "T")], some []⟩

/-- An environment realizing the C5 scenario: `Submission` yields
nothing, `Blind_Submission` yields one note, the `Paper` convention and
both the V1 API and the web source are failing. -/
def c5Env : FetchEnv :=
  ⟨.ok (), .error "v1 unavailable",
   fun inv => if inv = "ICLR.cc/2023/Conference/-/Blind_Submission"
              then .ok [c5Note] else .ok [],
   fun _ => .error "v1 unavailable",
   ⟨fun _ => .error "offline"⟩⟩

/-- An environment where the client is fine but every note fetch raises. -/
def c1Env : FetchEnv :=
  ⟨.ok (), .error "x", fun _ => .error "boom", fun _ => .error "x",
   ⟨fun _ => .error "offline"⟩⟩

/-- A character list is exactly one number token of the searched pattern:
an optional minus sign, one or more digits, and an optional decimal
fraction (a dot followed by zero or more digits). -/
def NumPat (m : List Char) : Prop :=
  ∃ sign ds dot fs,
    m = sign ++ ds ++ dot ++ fs ∧
    (sign = [] ∨ sign = ['-']) ∧
    ds ≠ [] ∧ ds.all Char.isDigit = true ∧
    ((dot = [] ∧ fs = []) ∨ (dot = ['.'] ∧ fs.all Char.isDigit = true))

theorem takeWhile_all_digits (cs : List Char) :
    (cs.takeWhile Char.isDigit).all Char.isDigit = true := by
  rw [List.all_eq_true]
  exact fun a ha => List.mem_takeWhile_imp ha

/-- Soundness of the core matcher: the returned token starts with a digit
run, satisfies the pattern without the sign, and is a prefix of the
input. -/
theorem matchDigitsAt_sound {cs m : List Char}
    (h : matchDigitsAt cs = some m) :
    (∃ ds dot fs,
       m = ds ++ dot ++ fs ∧ ds ≠ [] ∧ ds.all Char.isDigit = true ∧
       ((dot = [] ∧ fs = []) ∨ (dot = ['.'] ∧ fs.all Char.isDigit = true))) ∧
    m <+: cs := by
  unfold matchDigitsAt at h
  by_cases hds : (cs.takeWhile Char.isDigit).isEmpty
  · simp [hds] at h
  · have hne : cs.takeWhile Char.isDigit ≠ [] := by
      simpa [List.isEmpty_iff] using hds
    rw [if_neg hds] at h
    split at h
    next rest heq =>
      have hm := Option.some.inj h
      subst hm
      constructor
      · exact ⟨cs.takeWhile Char.isDigit, ['.'], rest.takeWhile Char.isDigit,
          by simp, hne, takeWhile_all_digits cs,
          Or.inr ⟨rfl, takeWhile_all_digits rest⟩⟩
      · have hsplit : cs.takeWhile Char.isDigit ++ '.' :: rest = cs := by
          rw [← heq]; exact List.takeWhile_append_dropWhile ..
        have hpre : ('.' : Char) :: rest.takeWhile Char.isDigit <+:
            '.' :: rest := by
          rw [List.cons_prefix_cons]
          exact ⟨rfl, List.takeWhile_prefix _⟩
        calc cs.takeWhile Char.isDigit ++ ['.'] ++ rest.takeWhile Char.isDigit
            = cs.takeWhile Char.isDigit ++
                ('.' :: rest.takeWhile Char.isDigit) := by simp
          _ <+: cs.takeWhile Char.isDigit ++ ('.' :: rest) :=
              (List.prefix_append_right_inj _).mpr hpre
          _ = cs := hsplit
    next =>
      have hm := Option.some.inj h
      subst hm
      exact ⟨⟨cs.takeWhile Char.isDigit, [], [], by simp, hne,
        takeWhile_all_digits cs, Or.inl ⟨rfl, rfl⟩⟩, List.takeWhile_prefix _⟩

/-- Soundness of the signed matcher: a returned token satisfies the full
pattern and is a prefix of the input position. -/
theorem matchNumAt_sound {cs m : List Char} (h : matchNumAt cs = some m) :
    NumPat m ∧ m <+: cs := by
  unfold matchNumAt at h
  split at h
  next rest =>
    simp only [Option.map_eq_some'] at h
    obtain ⟨m', hm', rfl⟩ := h
    obtain ⟨⟨ds, dot, fs, rfl, hds, hall, hdotfs⟩, hpre⟩ :=
      matchDigitsAt_sound hm'
    refine ⟨⟨['-'], ds, dot, fs, by simp, Or.inr rfl, hds, hall, hdotfs⟩, ?_⟩
    rw [List.cons_prefix_cons]
    exact ⟨rfl, hpre⟩
  next =>
    obtain ⟨⟨ds, dot, fs, rfl, hds, hall, hdotfs⟩, hpre⟩ :=
      matchDigitsAt_sound h
    exact ⟨⟨[], ds, dot, fs, by simp, Or.inl rfl, hds, hall, hdotfs⟩, hpre⟩

/-- The search fails exactly when no position of the input starts a
match. -/
theorem reSearchNum_eq_none_iff (cs : List Char) :
    reSearchNum cs = Option.none ↔
      ∀ i, matchNumAt (cs.drop i) = Option.none := by
  induction cs with
  | nil =>
    simp only [reSearchNum, List.drop_nil, true_iff]
    intro i
    rfl
  | cons c cs ih =>
    cases h : matchNumAt (c :: cs) with
    | some m =>
      simp only [reSearchNum, h]
      constructor
      · intro hfalse; cases hfalse
      · intro hall
        have := hall 0
        rw [List.drop_zero, h] at this
        cases this
    | none =>
      simp only [reSearchNum, h, ih]
      constructor
      · intro hall i
        cases i with
        | zero => rw [List.drop_zero]; exact h
        | succ i => rw [List.drop_succ_cons]; exact hall i
      · intro hall i
        have := hall (i + 1)
        rwa [List.drop_succ_cons] at this

/-- The search returns the match at the leftmost matching position. -/
theorem reSearchNum_leftmost (cs : List Char) (i : ℕ) (m : List Char)
    (hbefore : ∀ j < i, matchNumAt (cs.drop j) = Option.none)
    (hmatch : matchNumAt (cs.drop i) = some m) :
    reSearchNum cs = some m := by
  induction cs generalizing i with
  | nil =>
    rw [List.drop_nil] at hmatch
    exact absurd hmatch (by intro hx; cases hx)
  | cons c cs ih =>
    cases i with
    | zero =>
      rw [List.drop_zero] at hmatch
      simp only [reSearchNum, hmatch]
    | succ i =>
      have h0 := hbefore 0 (Nat.succ_pos i)
      rw [List.drop_zero] at h0
      rw [List.drop_succ_cons] at hmatch
      simp only [reSearchNum, h0]
      exact ih i
        (fun j hj => by
          have := hbefore (j + 1) (Nat.succ_lt_succ hj)
          rwa [List.drop_succ_cons] at this)
        hmatch

/-- Every match the search returns comes from some position. -/
theorem reSearchNum_some_at (cs m : List Char)
    (h : reSearchNum cs = some m) :
    ∃ i, matchNumAt (cs.drop i) = some m := by
  induction cs with
  | nil => cases h
  | cons c cs ih =>
    cases hm : matchNumAt (c :: cs) with
    | some m' =>
      simp only [reSearchNum, hm] at h
      exact ⟨0, by rw [List.drop_zero, hm, h]⟩
    | none =>
      simp only [reSearchNum, hm] at h
      obtain ⟨i, hi⟩ := ih h
      exact ⟨i + 1, by rwa [List.drop_succ_cons]⟩

/-- `parse_score` on a string input is exactly the regex search on the
stripped string (the empty-string early return coincides with the search
failing on an empty list). -/
theorem parse_score_str (s : String) :
    parse_score (.str s) =
      match reSearchNum (pyStrip s).data with
      | some m => some (parseMatchedFloat m)
      | Option.none => Option.none := by
  by_cases h : pyStrip s = ""
  · simp only [parse_score, pyStr, h]
    rfl
  · simp only [parse_score, pyStr, h]
    rfl

/-- C2: `parse_score` returns already-numeric inputs unchanged as floats;
on any other input it works on the coerced, stripped string: it returns
the parse of the match found at the leftmost matching position of the
pattern (optional minus sign, one or more digits, optional decimal
fraction), returns `None` exactly when no position matches (so for
"Accept", "" and `None`), and any returned match is a pattern-shaped
substring of the input; `parse_score(0)` and `parse_score("0")` both
give exactly `0.0`, distinct from `None`. -/
theorem C2_parse_score_contract :
    (∀ n : ℤ, parse_score (.int n) = some (n : ℚ)) ∧
    (∀ q : ℚ, parse_score (.float q) = some q) ∧
    parse_score .none = Option.none ∧
    (∀ s : String,
      (parse_score (.str s) = Option.none ↔
        ∀ i, matchNumAt ((pyStrip s).data.drop i) = Option.none) ∧
      (∀ i m, (∀ j < i, matchNumAt ((pyStrip s).data.drop j) = Option.none) →
        matchNumAt ((pyStrip s).data.drop i) = some m →
        parse_score (.str s) = some (parseMatchedFloat m)) ∧
      (∀ m, reSearchNum (pyStrip s).data = some m →
        NumPat m ∧ ∃ i, m <+: (pyStrip s).data.drop i)) ∧
    parse_score (.str "Accept") = Option.none ∧
    parse_score (.str "") = Option.none ∧
    parse_score (.int 0) = some 0 ∧
    parse_score (.str "0") = some 0 := by
  refine ⟨fun n => rfl, fun q => rfl, rfl, fun s => ⟨?_, ?_, ?_⟩,
    by with_unfolding_all decide, rfl, rfl, by with_unfolding_all decide⟩
  · rw [parse_score_str, ← reSearchNum_eq_none_iff]
    cases h : reSearchNum (pyStrip s).data <;> simp [h]
  · intro i m hbefore hmatch
    rw [parse_score_str, reSearchNum_leftmost _ i m hbefore hmatch]
  · intro m hsearch
    obtain ⟨i, hi⟩ := reSearchNum_some_at _ m hsearch
    obtain ⟨hpat, hpre⟩ := matchNumAt_sound hi
    exact ⟨hpat, i, hpre⟩

/-- Witness for C2: on "x7" position 0 fails to match, position 1
matches "7", and `parse_score` indeed returns that leftmost parse. -/
theorem C2_parse_score_contract_witness :
    parse_score (.str "x7") = some (parseMatchedFloat ['7']) :=
  (C2_parse_score_contract.2.2.2.1 "x7").2.1 1 ['7']
    (by with_unfolding_all decide) (by with_unfolding_all decide)

/-- Aggregates over an empty score list are all absent. -/
theorem mkStats_empty_scores (rc : ℕ) (scores confidences : List ℚ)
    (h : scores = []) :
    (mkStats rc scores confidences).max_score = Option.none ∧
    (mkStats rc scores confidences).min_score = Option.none ∧
    (mkStats rc scores confidences).avg_score = Option.none := by
  subst h
  exact ⟨List.max?_nil, List.min?_nil, rfl⟩

/-- C3: for every reply list (client-side aggregator) and review list
(parsing-side aggregator), `scored_review_count` equals the length of
`scores` and is at most `review_count`, and when `scores` is empty the
three score aggregates are all `None` — the average is guarded by the
emptiness test, never computed over an empty sequence. -/
theorem C3_stats_invariants :
    ∀ (replies reviews : List Reply),
      ((extract_scores_from_replies replies).scored_review_count =
          (extract_scores_from_replies replies).scores.length ∧
        (extract_scores_from_replies replies).scored_review_count ≤
          (extract_scores_from_replies replies).review_count ∧
        ((extract_scores_from_replies replies).scores = [] →
          (extract_scores_from_replies replies).max_score = Option.none ∧
          (extract_scores_from_replies replies).min_score = Option.none ∧
          (extract_scores_from_replies replies).avg_score = Option.none)) ∧
      ((compute_score_stats reviews).scored_review_count =
          (compute_score_stats reviews).scores.length ∧
        (compute_score_stats reviews).scored_review_count ≤
          (compute_score_stats reviews).review_count ∧
        ((compute_score_stats reviews).scores = [] →
          (compute_score_stats reviews).max_score = Option.none ∧
          (compute_score_stats reviews).min_score = Option.none ∧
          (compute_score_stats reviews).avg_score = Option.none)) := by
  intro replies reviews
  constructor
  · refine ⟨rfl, ?_, fun hempty => mkStats_empty_scores _ _ _ hempty⟩
    show ((replies.filter is_review_reply).filterMap
        (fun r => clientReplyScore r.content)).length ≤
      (replies.filter is_review_reply).length
    exact List.length_filterMap_le _ _
  · refine ⟨rfl, ?_, fun hempty => mkStats_empty_scores _ _ _ hempty⟩
    show (reviews.filterMap
        (fun r => (extract_review_scores r).1)).length ≤ reviews.length
    exact List.length_filterMap_le _ _

/-- Witness for C3: a reply that is a review (it has the recognized key
`summary`) but yields no score leaves every aggregate absent. -/
theorem C3_stats_invariants_witness :
    (extract_scores_from_replies
        [⟨[("summary", PyVal.str "looks good")]⟩]).avg_score =
      Option.none :=
  ((C3_stats_invariants [⟨[("summary", PyVal.str "looks good")]⟩] []).1.2.2
    (by with_unfolding_all decide)).2.2

/-- C4 counterexample: on content with "rating" = "Accept" and
"score" = 7, the spec's rule stops at the first present field "rating"
and parses nothing, while the code skips the unparseable "rating" and
returns 7.0 extracted from "score". -/
theorem C4_counterexample :
    (extract_review_scores
        ⟨[("rating", PyVal.str "Accept"), ("score", PyVal.int 7)]⟩).1 =
      some 7 ∧
    spec_first_present_score
        [("rating", PyVal.str "Accept"), ("score", PyVal.int 7)]
        SCORE_FIELD_NAMES = Option.none := by
  constructor
  · with_unfolding_all decide
  · with_unfolding_all decide

theorem firstParsedScore_eq_spec (content : Content) (fields : List String) :
    firstParsedScore content fields =
      spec_first_parsed_score content fields := by
  induction fields with
  | nil => rfl
  | cons f rest ih =>
    unfold firstParsedScore spec_first_parsed_score
    unfold spec_first_parsed_score at ih
    cases hl : content.lookup f with
    | none => simpa [List.filterMap_cons, hl] using ih
    | some v =>
      cases hp : parse_score (unwrapValue v) with
      | none => simpa [List.filterMap_cons, hl, hp] using ih
      | some p => simp [List.filterMap_cons, hl, hp]

/-- C4 amended: for every review content, score extraction returns the
parse of the first field in the priority-ordered list that is present
and whose unwrapped value parses (present-but-unparseable fields are
skipped), and confidence extraction follows the identical pattern over
its own smaller field-name list. -/
theorem C4_amended_extraction :
    ∀ content : Content,
      extract_review_scores ⟨content⟩ =
        (spec_first_parsed_score content SCORE_FIELD_NAMES,
         spec_first_parsed_score content CONFIDENCE_FIELD_NAMES) := by
  intro content
  unfold extract_review_scores
  rw [firstParsedScore_eq_spec, firstParsedScore_eq_spec]

/-- C7: "nips" and "NeurIPS" resolve to the same candidate list, and the
current-naming NeurIPS pattern comes before the legacy NIPS pattern. -/
theorem C7_nips_neurips_aliases :
    get_venue_id_candidates "nips" 2023 =
        get_venue_id_candidates "NeurIPS" 2023 ∧
    get_venue_id_candidates "nips" 2023 =
      ["NeurIPS.cc/2023/Conference", "NIPS.cc/2023/Conference"] := by
  constructor
  · with_unfolding_all decide
  · with_unfolding_all decide

/-- C8: a venue name matching no config (neither key nor alias, under
the source's case normalization) resolves to exactly the one-element
list containing the name literally, and the resolver always returns at
least one candidate. -/
theorem C8_unknown_venue_fallback :
    ∀ (venue_name : String) (year : ℤ),
      ((∀ kc ∈ VENUE_MAPPINGS, venueMatches venue_name kc = false) →
        get_venue_id_candidates venue_name year = [venue_name]) ∧
      get_venue_id_candidates venue_name year ≠ [] := by
  intro name year
  constructor
  · intro h
    unfold get_venue_id_candidates
    rw [List.find?_eq_none.mpr (fun kc hk => by simp [h kc hk])]
  · unfold get_venue_id_candidates
    cases hf : VENUE_MAPPINGS.find? (venueMatches name) with
    | none => simp
    | some kc =>
      have hmem : kc ∈ VENUE_MAPPINGS := List.mem_of_find?_eq_some hf
      have hpat : kc.2.patterns ≠ [] := by
        simp only [VENUE_MAPPINGS, List.mem_cons, List.not_mem_nil,
          or_false] at hmem
        rcases hmem with rfl | rfl | rfl | rfl <;> simp
      simp [hpat]

/-- Witness for C8: the spec's own example input. -/
theorem C8_unknown_venue_fallback_witness :
    get_venue_id_candidates "SomeUnknownVenue" 2024 = ["SomeUnknownVenue"] :=
  (C8_unknown_venue_fallback "SomeUnknownVenue" 2024).1
    (by with_unfolding_all decide)

/-- C10: the confidences sequence is computed from the review replies
alone, with no reference to score extraction (stated as an equality with
a score-free extraction pass), in both aggregators; concretely, a review
carrying only a confidence gives a paper with `avg_confidence` present
while `avg_score` is absent, `scored_review_count` is zero, and the
confidences sequence is longer than the scores sequence. -/
theorem C10_confidence_independent_of_score :
    (∀ replies : List Reply,
      (extract_scores_from_replies replies).confidences =
        (replies.filter is_review_reply).filterMap
          (fun r => clientReplyConfidence r.content)) ∧
    (∀ reviews : List Reply,
      (compute_score_stats reviews).confidences =
        reviews.filterMap (fun r => (extract_review_scores r).2)) ∧
    ((extract_scores_from_replies [⟨[("confidence", PyVal.str "4")]⟩]).review_count = 1 ∧
     (extract_scores_from_replies [⟨[("confidence", PyVal.str "4")]⟩]).scored_review_count = 0 ∧
     (extract_scores_from_replies [⟨[("confidence", PyVal.str "4")]⟩]).avg_score = Option.none ∧
     (extract_scores_from_replies [⟨[("confidence", PyVal.str "4")]⟩]).avg_confidence = some 4 ∧
     (extract_scores_from_replies [⟨[("confidence", PyVal.str "4")]⟩]).scores.length <
       (extract_scores_from_replies [⟨[("confidence", PyVal.str "4")]⟩]).confidences.length) ∧
    ((compute_score_stats [⟨[("confidence", PyVal.str "4")]⟩]).scored_review_count = 0 ∧
     (compute_score_stats [⟨[("confidence", PyVal.str "4")]⟩]).avg_score = Option.none ∧
     (compute_score_stats [⟨[("confidence", PyVal.str "4")]⟩]).avg_confidence = some 4) := by
  refine ⟨fun replies => rfl, fun reviews => rfl, ?_, ?_⟩
  · with_unfolding_all decide
  · with_unfolding_all decide

/-- C6 counterexample: a web-delegated fetch returns a paper dict that
does NOT expose the enumerated field set — `review_count` is a spec
field missing from it, and it carries the extra key `venue`. -/
theorem C6_counterexample :
    fetch_submissions_with_reviews c6Env "AAAI.org/2024/Conference" =
      .ok ([webNoteOfItem "2024" c6WebItem], "") ∧
    "review_count" ∈ SPEC_PAPER_FIELDS ∧
    "review_count" ∉ (webNoteOfItem "2024" c6WebItem).map Prod.fst ∧
    "venue" ∈ (webNoteOfItem "2024" c6WebItem).map Prod.fst ∧
    "venue" ∉ SPEC_PAPER_FIELDS := by
  refine ⟨?_, by decide, ?_, ?_, by decide⟩
  · with_unfolding_all rfl
  · with_unfolding_all decide
  · with_unfolding_all decide

/-- C6 amended: every API-path paper exposes exactly the enumerated
fields (its key sequence is a permutation of the spec's list), while
every web-scrape-path paper exposes a different key set: it stamps the
three score aggregates as absent and `scored_review_count` as zero, but
omits `review_count`, `scores`, `confidences`, `avg_confidence`,
`pdf_url` and `openreview_url`, and adds `venue`, `year` and
`score_distribution`. -/
theorem C6_amended_paper_shape :
    (∀ (venue_id : String) (note : Note),
      (paperOfNote venue_id note).map Prod.fst = API_PAPER_FIELDS) ∧
    API_PAPER_FIELDS.Perm SPEC_PAPER_FIELDS ∧
    (∀ (year : String) (item : WebItem),
      (webNoteOfItem year item).map Prod.fst = WEB_PAPER_FIELDS) ∧
    (∀ k ∈ ["review_count", "scores", "confidences", "avg_confidence",
            "pdf_url", "openreview_url"],
      k ∈ SPEC_PAPER_FIELDS ∧ k ∉ WEB_PAPER_FIELDS) ∧
    (∀ k ∈ ["venue", "year", "score_distribution"],
      k ∈ WEB_PAPER_FIELDS ∧ k ∉ SPEC_PAPER_FIELDS) ∧
    (∀ (year : String) (item : WebItem),
      (webNoteOfItem year item).lookup "avg_score" = some PyVal.none ∧
      (webNoteOfItem year item).lookup "max_score" = some PyVal.none ∧
      (webNoteOfItem year item).lookup "min_score" = some PyVal.none ∧
      (webNoteOfItem year item).lookup "scored_review_count" =
        some (PyVal.int 0)) := by
  exact ⟨fun vid note => rfl, by decide, fun y i => rfl, by decide, by decide,
    fun y i => ⟨rfl, rfl, rfl, rfl⟩⟩

/-- Witness for C6's amended statement: `review_count` is a spec field
the web-path papers do not carry. -/
theorem C6_amended_paper_shape_witness :
    "review_count" ∈ SPEC_PAPER_FIELDS ∧ "review_count" ∉ WEB_PAPER_FIELDS :=
  C6_amended_paper_shape.2.2.2.1 "review_count" (by decide)

/-- C9: the web-scrape fallback degrades every failure to an empty list —
a raised request, a 404 for an unpublished year, any other 4xx/5xx
status, a JSON decoding failure, and a venue id without a year all yield
`[]`; a successful response maps each entry to a note dict whose authors
sequence is the semicolon-split, stripped author string. -/
theorem C9_web_scraper_degrades :
    (∀ (env : WebEnv) (year : String) (r : HttpResponse),
        env.get (aaaiUrl year) = .ok r → r.status_code = 404 →
        fetch_aaai_from_github env year = []) ∧
    (∀ (env : WebEnv) (year e : String),
        env.get (aaaiUrl year) = .error e →
        fetch_aaai_from_github env year = []) ∧
    (∀ (env : WebEnv) (year : String) (r : HttpResponse),
        env.get (aaaiUrl year) = .ok r →
        400 ≤ r.status_code → r.status_code < 600 →
        fetch_aaai_from_github env year = []) ∧
    (∀ (env : WebEnv) (year e : String) (r : HttpResponse),
        env.get (aaaiUrl year) = .ok r → r.json = .error e →
        fetch_aaai_from_github env year = []) ∧
    (∀ (env : WebEnv) (venue_id : String),
        searchYear venue_id.data = Option.none →
        scrape_venue env venue_id = []) ∧
    (∀ (env : WebEnv) (year : String) (r : HttpResponse)
        (items : List WebItem),
        env.get (aaaiUrl year) = .ok r → r.status_code < 400 →
        r.json = .ok items →
        fetch_aaai_from_github env year = items.map (webNoteOfItem year)) ∧
    (∀ (year : String) (item : WebItem),
      (webNoteOfItem year item).lookup "authors" =
        some (.list ((splitAuthors (item.author.getD "")).map PyVal.str))) ∧
    splitAuthors "Alice; Bob ;Carol" = ["Alice", "Bob", "Carol"] := by
  refine ⟨?_, ?_, ?_, ?_, ?_, ?_, fun y i => rfl,
    by with_unfolding_all decide⟩
  · intro env year r hget h404
    simp [fetch_aaai_from_github, hget, h404]
  · intro env year e hget
    simp [fetch_aaai_from_github, hget]
  · intro env year r hget hlo hhi
    have hcase : r.status_code = 404 ∨ r.status_code ≠ 404 := em _
    simp only [fetch_aaai_from_github, hget]
    rcases hcase with h | h
    · simp [h]
    · simp [h, hlo, hhi]
  · intro env year e r hget hjson
    simp only [fetch_aaai_from_github, hget]
    by_cases h404 : r.status_code = 404
    · simp [h404]
    · by_cases hbad : 400 ≤ r.status_code ∧ r.status_code < 600
      · simp [h404, hbad]
      · simp [h404, hbad, hjson]
  · intro env venue_id hyear
    unfold scrape_venue
    by_cases hc : strContains venue_id "AAAI" = true
    · simp [hc, hyear]
    · simp [hc]
  · intro env year r items hget hstatus hjson
    have h404 : r.status_code ≠ 404 := by omega
    have hbad : ¬(400 ≤ r.status_code ∧ r.status_code < 600) := by omega
    simp [fetch_aaai_from_github, hget, h404, hbad, hjson]

/-- Witness for C9: a 404 for an unpublished year is an empty list. -/
theorem C9_web_scraper_degrades_witness :
    fetch_aaai_from_github ⟨fun _ => .ok ⟨404, .ok []⟩⟩ "2031" = [] :=
  C9_web_scraper_degrades.1 ⟨fun _ => .ok ⟨404, .ok []⟩⟩ "2031"
    ⟨404, .ok []⟩ rfl rfl

/-- C5: when the `Submission` convention yields zero records and
`Blind_Submission` yields records, fetch returns the `Blind_Submission`
records — and the result is the same for EVERY outcome of the later
`Paper` convention and of the V1 API, which is the short-circuit; when
`Submission` itself yields records, the result likewise ignores every
later convention. -/
theorem C5_pattern_fallback_order :
    (∀ (env : FetchEnv) (venue_id : String) (l : List Note),
      webDelegated venue_id = false →
      env.clientV2 = .ok () →
      env.getAllNotes (venue_id ++ "/-/Submission") = .ok [] →
      env.getAllNotes (venue_id ++ "/-/Blind_Submission") = .ok l →
      l ≠ [] →
      fetch_submissions_with_reviews env venue_id =
        .ok (l.map (paperOfNote venue_id),
             fetchedMsg (l.map (paperOfNote venue_id)))) ∧
    (∀ (env : FetchEnv) (venue_id : String) (l : List Note),
      webDelegated venue_id = false →
      env.clientV2 = .ok () →
      env.getAllNotes (venue_id ++ "/-/Submission") = .ok l →
      l ≠ [] →
      fetch_submissions_with_reviews env venue_id =
        .ok (l.map (paperOfNote venue_id),
             fetchedMsg (l.map (paperOfNote venue_id)))) := by
  constructor
  · intro env venue_id l hweb hcl hsub hblind hne
    have hfalse : l.isEmpty = false := by
      cases l with
      | nil => exact absurd rfl hne
      | cons a as => rfl
    have hcc : create_client env = .ok .v2 := by
      unfold create_client
      rw [hcl]
    have halt : tryAlternativePatterns env venue_id = l := by
      unfold tryAlternativePatterns
      rw [hblind]
      simp [retry_with_backoff, hfalse]
    have hbody : fetchBody env venue_id =
        .ok (l.map (paperOfNote venue_id),
             fetchedMsg (l.map (paperOfNote venue_id))) := by
      unfold fetchBody
      rw [hsub]
      simp [retry_with_backoff, halt, hfalse]
    unfold fetch_submissions_with_reviews
    simp only [hweb, Bool.false_eq_true, if_false, hcc, hbody]
  · intro env venue_id l hweb hcl hsub hne
    have hfalse : l.isEmpty = false := by
      cases l with
      | nil => exact absurd rfl hne
      | cons a as => rfl
    have hcc : create_client env = .ok .v2 := by
      unfold create_client
      rw [hcl]
    have hbody : fetchBody env venue_id =
        .ok (l.map (paperOfNote venue_id),
             fetchedMsg (l.map (paperOfNote venue_id))) := by
      unfold fetchBody
      rw [hsub]
      simp [retry_with_backoff, hfalse]
    unfold fetch_submissions_with_reviews
    simp only [hweb, Bool.false_eq_true, if_false, hcc, hbody]

/-- Witness for C5: the concrete scenario environment. -/
theorem C5_pattern_fallback_order_witness :
    fetch_submissions_with_reviews c5Env "ICLR.cc/2023/Conference" =
      .ok ([c5Note].map (paperOfNote "ICLR.cc/2023/Conference"),
           fetchedMsg ([c5Note].map (paperOfNote "ICLR.cc/2023/Conference"))) :=
  C5_pattern_fallback_order.1 c5Env "ICLR.cc/2023/Conference" [c5Note]
    (by with_unfolding_all decide) rfl (by with_unfolding_all rfl)
    (by with_unfolding_all rfl) (by simp)

/-- C1 counterexample: when both client constructors raise, the exception
escapes `fetch_submissions_with_reviews`, because `create_client` is
called before the `try` block and its own fallback constructor call is
unguarded. -/
theorem C1_counterexample :
    fetch_submissions_with_reviews
      ⟨.error "api2 unreachable", .error "api1 unreachable",
       fun _ => .ok [], fun _ => .ok [], ⟨fun _ => .ok ⟨200, .ok []⟩⟩⟩
      "ICLR.cc/2023/Conference" = .error "api1 unreachable" := by
  with_unfolding_all rfl

/-- C1 amended: once a client is obtained (or the venue is delegated to
the web source), fetch always returns a pair — any exception raised in
the fetch body is converted into the empty list plus an error-describing
status string. -/
theorem C1_fetch_error_conversion :
    (∀ (env : FetchEnv) (venue_id : String),
      (∃ k, create_client env = .ok k) ∨ webDelegated venue_id = true →
      ∃ papers status,
        fetch_submissions_with_reviews env venue_id = .ok (papers, status)) ∧
    (∀ (env : FetchEnv) (venue_id e : String),
      webDelegated venue_id = false →
      (∃ k, create_client env = .ok k) →
      fetchBody env venue_id = .error e →
      fetch_submissions_with_reviews env venue_id =
        .ok ([], "Error: " ++ e)) := by
  constructor
  · intro env venue_id h
    unfold fetch_submissions_with_reviews
    by_cases hw : webDelegated venue_id = true
    · exact ⟨scrape_venue env.web venue_id, "", by simp [hw]⟩
    · rcases h with ⟨k, hk⟩ | hweb
      · simp only [hw, if_false]
        rw [hk]
        cases hb : fetchBody env venue_id with
        | ok res => exact ⟨res.1, res.2, by simp⟩
        | error e => exact ⟨[], "Error: " ++ e, rfl⟩
      · exact absurd hweb hw
  · intro env venue_id e hweb hk hbody
    obtain ⟨k, hk⟩ := hk
    unfold fetch_submissions_with_reviews
    simp only [hweb, Bool.false_eq_true, if_false, hk, hbody]

/-- Witness for C1's amended statement: the exhausted retries are
converted into an empty list and an error status. -/
theorem C1_fetch_error_conversion_witness :
    fetch_submissions_with_reviews c1Env "ICLR.cc/2023/Conference" =
      .ok ([], "Error: " ++ "API failed after 3 attempts: boom") :=
  C1_fetch_error_conversion.2 c1Env "ICLR.cc/2023/Conference"
    "API failed after 3 attempts: boom" (by with_unfolding_all decide)
    ⟨.v2, rfl⟩ (by with_unfolding_all rfl)

end PaperScout
